import Mathlib

/-
Verification of the real-time event fan-out and cache-consistency layer of
the eventomir marketplace backend.

The development shallowly embeds the JavaScript source:

* `src/middleware/redis.js` — the read-through cache façade `fetchCached`,
  the pattern invalidation facility `invalidatePattern`, and the
  `generateUniqueCode` loop.
* `src/services/socket.js` — the bus-event fan-out `handleRedisEvent` and
  the connection / disconnect handlers installed by `initSocket`
  (presence set, `online_users_list` emission).
* `src/controllers/search.js` — the cache-key normalization of
  `searchPerformers` (sort query keys, re-serialize, hash).

JavaScript values that flow through the cache are modelled by the inductive
`JSVal`; JS truthiness (`if (data)`) is modelled by `JSVal.truthy`.  The
Redis string store is modelled as an association list of entries carrying
the deserialized value and the TTL passed to `SET ... EX`: the
`JSON.stringify`/`JSON.parse` pair used by `fetchCached` is modelled as the
identity round-trip (every value stored by the façade serializes to a
non-empty string, so the hit test `if (cachedData)` is key presence).
Fallibility of the external Redis connection is made explicit: each Redis
operation of a run is tagged by a fault flag saying whether that operation
throws, and the façade's `try/catch` becomes a case split on those flags.
-/

set_option maxHeartbeats 1000000

/-! ### JavaScript values and truthiness -/

/-- A JavaScript value as it flows through the cache layer: `null`,
`undefined`, booleans, numbers (modelled as integers; the cache logic only
inspects truthiness), strings, and arrays ("collections"). -/
inductive JSVal where
  | null : JSVal
  | undef : JSVal
  | bool : Bool → JSVal
  | num : Int → JSVal
  | str : String → JSVal
  | arr : List JSVal → JSVal

/-- JS truthiness, as used by `if (data)` in `fetchCached`: `null`,
`undefined`, `false`, `0` and the empty string are falsy; every array
(including the empty one) is truthy. -/
def JSVal.truthy : JSVal → Bool
  | .null => false
  | .undef => false
  | .bool b => b
  | .num n => n != 0
  | .str s => s ≠ ""
  | .arr _ => true

/-! ### The Redis key space -/

/-- One key of the Redis store: the (deserialized) value and the TTL in
seconds that was passed via `EX` when it was written. -/
structure CacheEntry where
  key : String
  value : JSVal
  ttl : Nat

/-- The Redis key space visible to the middleware: an association list of
entries (most recent write first). -/
abbrev CacheStore := List CacheEntry

/-- `redis.get key` (and `redis.exists key`): first entry with this key. -/
def lookupKey (s : CacheStore) (k : String) : Option JSVal :=
  (s.find? (fun e => e.key == k)).map (fun e => e.value)

/-- `redis.exists key` returning whether the key is present. -/
def keyExists (s : CacheStore) (k : String) : Bool :=
  (s.find? (fun e => e.key == k)).isSome

/-- `redis.set key value "EX" ttl`: overwrite the key. -/
def setKey (s : CacheStore) (k : String) (v : JSVal) (ttl : Nat) : CacheStore :=
  ⟨k, v, ttl⟩ :: s.filter (fun e => decide (e.key ≠ k))

/-- `redis.del k1 ... kn`: drop every entry whose key is listed. -/
def delKeys (s : CacheStore) (ks : List String) : CacheStore :=
  s.filter (fun e => decide (e.key ∉ ks))

/-- The keys currently present, in store order (the scan order of the
key space). -/
def storeKeys (s : CacheStore) : List String :=
  s.map (fun e => e.key)

/-! ### The read-through cache façade `fetchCached` -/

/-- Which Redis operations of one `fetchCached` run throw.  `fetchCached`
performs at most one `redis.get` and one `redis.set`; a flag set to `true`
means the corresponding network call raises. -/
structure RedisFaults where
  getFails : Bool
  setFails : Bool

/-- A reachable cache: no Redis operation throws. -/
def noFaults : RedisFaults := ⟨false, false⟩

/-- Every Redis operation throws: the cache store is unreachable. -/
def allFaults : RedisFaults := ⟨true, true⟩

/-- Outcome of one `fetchCached` run: the value returned to the caller (or
the exception that escaped), the key space afterwards, and how many times
`dbQuery` (the compute function) was invoked. -/
structure FetchOutcome where
  result : Except Unit JSVal
  store : CacheStore
  dbCalls : Nat

/-- `fetchCached(resource, id, dbQuery, ttl)` from `src/middleware/redis.js`.

The deterministic compute function `dbQuery` is given by its outcome (a
value, or the exception it throws).  Control flow of the source:

* `redis.get` throws ⇒ the `catch` block runs `return await dbQuery()`;
* cache hit (`if (cachedData)`) ⇒ return the deserialized value, no
  `dbQuery` call;
* cache miss ⇒ `data = await dbQuery()`; if `data` throws, the `catch`
  block invokes `dbQuery` once more and its outcome escapes;
* `if (data)` (JS truthiness) ⇒ `redis.set(key, ..., "EX", ttl)`; if that
  throws, the `catch` block invokes `dbQuery` a second time and returns its
  result; otherwise return `data`;
* falsy `data` ⇒ nothing is stored, `data` is returned. -/
def fetchCached (resource : String) (id : String) (dbQuery : Except Unit JSVal)
    (ttl : Nat) (faults : RedisFaults) (store : CacheStore) : FetchOutcome :=
  let key := resource ++ ":" ++ id
  if faults.getFails then
    { result := dbQuery, store := store, dbCalls := 1 }
  else
    match lookupKey store key with
    | some cached => { result := .ok cached, store := store, dbCalls := 0 }
    | none =>
      match dbQuery with
      | .error e =>
        { result := .error e, store := store, dbCalls := 2 }
      | .ok data =>
        if data.truthy then
          if faults.setFails then
            { result := dbQuery, store := store, dbCalls := 2 }
          else
            { result := .ok data, store := setKey store key data ttl, dbCalls := 1 }
        else
          { result := .ok data, store := store, dbCalls := 1 }

/-! ### Pattern invalidation (`invalidatePattern`) -/

/-- Redis glob matching over character lists, as used by `SCAN ... MATCH`:
`*` matches any (possibly empty) run of characters, `?` matches exactly one
character, every other pattern character matches itself. -/
def globMatchL : List Char → List Char → Bool
  | [], [] => true
  | [], _ :: _ => false
  | '*' :: ps, [] => globMatchL ps []
  | '*' :: ps, c :: cs => globMatchL ps (c :: cs) || globMatchL ('*' :: ps) cs
  | p :: ps, c :: cs => (p == '?' || p == c) && globMatchL ps cs
  | _ :: _, [] => false
termination_by p s => (p.length, s.length)

/-- Redis glob matching on strings. -/
def globMatch (pat s : String) : Bool := globMatchL pat.data s.data

/-- One `redis.scan cursor "MATCH" pattern "COUNT" 100` step over the scan
snapshot starting at the cursor: the keys returned are the matching keys
among the at most 100 examined. -/
def scanBatch (pat : String) (snapshot : List String) : List String :=
  (snapshot.take 100).filter (fun k => globMatch pat k)

/-- The `do ... while (cursor !== "0")` loop of `invalidatePattern`: each
iteration scans the next batch of at most `COUNT = 100` keys, deletes the
matching ones (`redis.del`), and advances the cursor. -/
def scanDeleteLoop (pat : String) : List String → CacheStore → CacheStore
  | [], s => s
  | h :: t, s => scanDeleteLoop pat ((h :: t).drop 100) (delKeys s (scanBatch pat (h :: t)))
termination_by snapshot _ => snapshot.length
decreasing_by simp [List.length_drop]; omega

/-- `invalidatePattern(pattern)` from `src/middleware/redis.js`: cursor scan
over the key space, deleting every matching batch. -/
def invalidatePattern (pat : String) (s : CacheStore) : CacheStore :=
  scanDeleteLoop pat (storeKeys s) s

/-! ### Search cache-key normalization (`searchPerformers`) -/

/-- `Object.keys(queryParams).sort()` from `src/controllers/search.js`: the
query parameter names in ascending lexicographic order.  A query-parameter
object is modelled as its ordered list of key/value bindings. -/
def sortedQueryKeys (q : List (String × String)) : List String :=
  (q.map Prod.fst).mergeSort

/-- The `reduce` rebuilding `sortedParams`: bind each key, in sorted order,
to its value in the original query object. -/
def sortedParams (q : List (String × String)) : List (String × String) :=
  (sortedQueryKeys q).map (fun k => (k, (q.lookup k).getD ""))

/-- `JSON.stringify` of a string-valued object, fields in binding order. -/
def jsonStringifyParams (ps : List (String × String)) : String :=
  "\x7b" ++ String.intercalate ","
      (ps.map (fun p => "\"" ++ p.1 ++ "\":\"" ++ p.2 ++ "\"")) ++ "\x7d"

/-- The cache key derived by `searchPerformers`: resource `search_performers`
joined with the digest of the re-serialized, key-sorted parameters.  The
hex digest (`crypto.createHash("md5")...digest("hex")`) is an arbitrary
deterministic function of the serialized string, so it is a parameter. -/
def searchCacheKey (md5hex : String → String) (q : List (String × String)) : String :=
  "search_performers:" ++ md5hex (jsonStringifyParams (sortedParams q))

/-! ### The real-time gateway (`src/services/socket.js`) -/

/-- A persisted chat message as carried in a `NEW_MESSAGE` payload: its
`content` and the included sender record's `name`; `none` models a missing
sender relation or missing name (`message.sender?.name`). -/
structure MessageRecord where
  content : String
  senderName : Option String

/-- Where a gateway emission goes: into a named room (`io.to(room).emit`),
to the single connecting socket (`socket.emit`), or broadcast to every
connected socket (`io.emit`). -/
inductive EmitTarget where
  | room : String → EmitTarget
  | connectingSocket : EmitTarget
  | broadcast : EmitTarget

/-- Payload of a gateway emission. -/
inductive EmitPayload where
  | message : MessageRecord → EmitPayload
  | messageNotice : (chatId senderName preview : String) → EmitPayload
  | statusChange : (userId status : String) → EmitPayload
  | userList : List String → EmitPayload
  | notificationTo : (userId : String) → EmitPayload

/-- One `emit` performed by the gateway. -/
structure Emission where
  target : EmitTarget
  event : String
  payload : EmitPayload

/-- A typed event envelope on the `app_events_stream` bus channel.  String
fields model the duck-typed JS payload; an absent/falsy identifier
(`undefined` or `""`) is modelled as `""`. -/
inductive BusEvent where
  | userStatus (userId status : String)
  | newMessage (message : MessageRecord) (chatId : String) (receiverId : String)
  | notificationEvent (userId : String)
  | unknownType (typ : String)

/-- `message.sender?.name || "User"`. -/
def senderDisplay (m : MessageRecord) : String :=
  match m.senderName with
  | some n => if n = "" then "User" else n
  | none => "User"

/-- `handleRedisEvent(io, event)` from `src/services/socket.js`: the
emissions produced for one bus envelope, in order. -/
def handleRedisEvent : BusEvent → List Emission
  | .userStatus u st => [⟨.broadcast, "user_status_change", .statusChange u st⟩]
  | .newMessage m c r =>
      ⟨.room c, "receive_message", .message m⟩ ::
        (if r ≠ "" then
          [⟨.room r, "message_notification", .messageNotice c (senderDisplay m) m.content⟩]
        else [])
  | .notificationEvent u =>
      if u ≠ "" then [⟨.room u, "notification", .notificationTo u⟩] else []
  | .unknownType _ => []

/-- `SADD online_users_set userId`: idempotent set add (the presence set is
modelled as a duplicate-free list). -/
def saddOnline (online : List String) (u : String) : List String :=
  if u ∈ online then online else online ++ [u]

/-- `SREM online_users_set userId`: remove the member. -/
def sremOnline (online : List String) (u : String) : List String :=
  online.filter (fun x => decide (x ≠ u))

/-- Effect of the `io.on("connection")` handler of `initSocket` for a
successfully authenticated user: the presence set afterwards, the emissions
to sockets, and the envelopes published on the bus. -/
structure ConnectOutcome where
  online : List String
  emits : List Emission
  published : List BusEvent

/-- The connection handler of `initSocket`: join the personal room, `SADD`
the user into the presence set, publish the online `USER_STATUS` envelope,
read the members back (`SMEMBERS`) and emit them as `online_users_list` to
the connecting socket alone. -/
def connectionHandler (u : String) (online : List String) : ConnectOutcome :=
  let online2 := saddOnline online u
  { online := online2,
    emits := [⟨.connectingSocket, "online_users_list", .userList online2⟩],
    published := [.userStatus u "online"] }

/-- The `socket.on("disconnect")` handler of `initSocket`: `SREM` the user
from the presence set and publish the offline `USER_STATUS` envelope. -/
def disconnectHandler (u : String) (online : List String) : List String × List BusEvent :=
  (sremOnline online u, [.userStatus u "offline"])

/-! ### `generateUniqueCode` -/

/-- `randomNum.toString().padStart(2, "0")`. -/
def pad2 (n : Nat) : String :=
  if n < 10 then "0" ++ toString n else toString n

/-- The Redis key guarding a code. -/
def codeKey (code : String) : String := "code:" ++ code

/-- `2 * 24 * 60 * 60` — `EXPIRY_IN_SECONDS`, two days. -/
def EXPIRY_IN_SECONDS : Nat := 2 * 24 * 60 * 60

/-- `redis.set key value "EX" ttl "NX"`: write only if the key is absent. -/
def setKeyNX (s : CacheStore) (k : String) (v : JSVal) (ttl : Nat) : CacheStore :=
  if keyExists s k then s else setKey s k v ttl

/-- Fault model for one `generateUniqueCode` run: whether the `redis.exists`
of iteration `i` throws, and whether the final `redis.set` throws. -/
structure GenFaults where
  existsFailsAt : Nat → Bool
  setFails : Bool

/-- All Redis operations of the run succeed. -/
def genNoFaults : GenFaults := ⟨fun _ => false, false⟩

/-- Outcome of `generateUniqueCode`: the returned code and the store after
the `SET ... NX`, or the `null` return from the `catch` block, or — since
the `while (!isUnique)` loop of the source has no bound — exhaustion of the
fuel that makes the model total. -/
inductive GenOutcome where
  | value : String → CacheStore → GenOutcome
  | nullResult : CacheStore → GenOutcome
  | outOfFuel : GenOutcome

/-- The `while (!isUnique)` loop: iteration `i` draws `rands i` (the value
of `Math.floor(Math.random() * 100)`), pads it, and checks
`redis.exists("code:" + randomCode)`; it stops on a throw (`.error`) or on
an absent key (`.ok code`). -/
def genLoop (store : CacheStore) (rands : Nat → Fin 100) (faults : GenFaults) :
    Nat → Nat → Option (Except Unit String)
  | 0, _ => none
  | fuel + 1, i =>
    if faults.existsFailsAt i then some (.error ())
    else
      let code := pad2 (rands i)
      if keyExists store (codeKey code) then genLoop store rands faults fuel (i + 1)
      else some (.ok code)

/-- `generateUniqueCode()` from `src/middleware/redis.js`: run the loop,
then save the found code under `code:<code>` with the two-day expiry; any
Redis error is caught and `null` is returned. -/
def generateUniqueCode (store : CacheStore) (rands : Nat → Fin 100)
    (faults : GenFaults) (fuel : Nat) : GenOutcome :=
  match genLoop store rands faults fuel 0 with
  | none => .outOfFuel
  | some (.error _) => .nullResult store
  | some (.ok code) =>
    if faults.setFails then .nullResult store
    else .value code (setKeyNX store (codeKey code) (.str "active") EXPIRY_IN_SECONDS)

/-- A key space in which all 100 code keys are already taken. -/
def allCodesStore : CacheStore :=
  (List.range 100).map (fun n => ⟨codeKey (pad2 n), .str "active", EXPIRY_IN_SECONDS⟩)

/-! ### Properties of `fetchCached` -/

/-- Freshly stored keys are found by the next `redis.get`. -/
theorem lookupKey_setKey_self (s : CacheStore) (k : String) (v : JSVal) (t : Nat) :
    lookupKey (setKey s k v t) k = some v := by
  simp [lookupKey, setKey, List.find?]

/-- C1: if a first `fetchCached` call stored a result in the cache (it ran on
a miss, `computeFn` produced a storable value, and the cache was reachable),
then a second `fetchCached` call with the same resource and identifier
returns the cached value and does not invoke `computeFn` again: the total
compute-function call count across the two sequential fetches is 1. -/
theorem fetchCached_second_fetch_no_recompute (resource id : String) (v : JSVal)
    (ttl1 ttl2 : Nat) (store : CacheStore)
    (hmiss : lookupKey store (resource ++ ":" ++ id) = none)
    (htruthy : v.truthy = true) :
    (fetchCached resource id (.ok v) ttl1 noFaults store).dbCalls = 1 ∧
    (fetchCached resource id (.ok v) ttl2 noFaults
        (fetchCached resource id (.ok v) ttl1 noFaults store).store).result = .ok v ∧
    (fetchCached resource id (.ok v) ttl2 noFaults
        (fetchCached resource id (.ok v) ttl1 noFaults store).store).dbCalls = 0 := by
  have hkey := lookupKey_setKey_self store (resource ++ ":" ++ id) v ttl1
  simp [fetchCached, noFaults, hmiss, htruthy, hkey]

/-- Witness for C1: concrete two-fetch run on an empty store. -/
theorem fetchCached_second_fetch_no_recompute_witness :
    lookupKey [] ("users" ++ ":" ++ "all") = none ∧
    (JSVal.arr []).truthy = true ∧
    ((fetchCached "users" "all" (.ok (JSVal.arr [])) 60 noFaults []).dbCalls = 1 ∧
     (fetchCached "users" "all" (.ok (JSVal.arr [])) 300 noFaults
         (fetchCached "users" "all" (.ok (JSVal.arr [])) 60 noFaults []).store).result
       = .ok (JSVal.arr []) ∧
     (fetchCached "users" "all" (.ok (JSVal.arr [])) 300 noFaults
         (fetchCached "users" "all" (.ok (JSVal.arr [])) 60 noFaults []).store).dbCalls = 0) :=
  ⟨rfl, rfl,
    fetchCached_second_fetch_no_recompute "users" "all" (JSVal.arr []) 60 300 [] rfl rfl⟩

/-- C4: if every Redis operation inside `fetchCached` throws (the cache
store is unreachable), `fetchCached` still returns the result of invoking
`computeFn` — the fault is caught, `computeFn` runs once, and no error
surfaces to the caller. -/
theorem fetchCached_unreachable_falls_back (resource id : String) (v : JSVal)
    (ttl : Nat) (store : CacheStore) :
    (fetchCached resource id (.ok v) ttl allFaults store).result = .ok v ∧
    (fetchCached resource id (.ok v) ttl allFaults store).dbCalls = 1 := by
  simp [fetchCached, allFaults]

/-- C5 counterexample: `computeFn` returning the number `0` — a value that
is neither `null` nor `undefined` — is NOT stored by `fetchCached`: the
storage guard `if (data)` tests JS truthiness, not only null/undefined. -/
theorem fetchCached_zero_not_stored :
    lookupKey (fetchCached "users" "all" (.ok (JSVal.num 0)) 300 noFaults []).store
        ("users" ++ ":" ++ "all") = none ∧
    JSVal.num 0 ≠ JSVal.null ∧ JSVal.num 0 ≠ JSVal.undef := by
  refine ⟨by rfl, ?_, ?_⟩
  · intro h; cases h
  · intro h; cases h

/-- C5 amended: on a cache miss with the cache reachable, `fetchCached`
stores `computeFn`'s result `v` if and only if `v` is truthy in the
JavaScript sense — so an empty collection IS stored and a subsequent fetch
does not re-invoke `computeFn`, while `null`/`undefined` (and every other
falsy value, such as `0`, `false` and `""`) is NOT stored and a subsequent
fetch invokes `computeFn` again. -/
theorem fetchCached_stores_iff_truthy (resource id : String) (v : JSVal)
    (ttl1 ttl2 : Nat) (store : CacheStore)
    (hmiss : lookupKey store (resource ++ ":" ++ id) = none) :
    lookupKey (fetchCached resource id (.ok v) ttl1 noFaults store).store
        (resource ++ ":" ++ id) = (if v.truthy then some v else none) ∧
    (v.truthy = true →
      (fetchCached resource id (.ok v) ttl2 noFaults
        (fetchCached resource id (.ok v) ttl1 noFaults store).store).dbCalls = 0) ∧
    (v.truthy = false →
      (fetchCached resource id (.ok v) ttl2 noFaults
        (fetchCached resource id (.ok v) ttl1 noFaults store).store).dbCalls = 1) := by
  by_cases htruthy : v.truthy
  · have hkey := lookupKey_setKey_self store (resource ++ ":" ++ id) v ttl1
    simp [fetchCached, noFaults, hmiss, htruthy, hkey]
  · simp only [Bool.not_eq_true] at htruthy
    simp [fetchCached, noFaults, hmiss, htruthy]

/-- Witness for C5 amended: an empty array on an empty store is cached. -/
theorem fetchCached_stores_iff_truthy_witness :
    lookupKey [] ("users" ++ ":" ++ "all") = none ∧
    (lookupKey (fetchCached "users" "all" (.ok (JSVal.arr [])) 60 noFaults []).store
        ("users" ++ ":" ++ "all") = (if (JSVal.arr []).truthy then some (JSVal.arr []) else none) ∧
     ((JSVal.arr []).truthy = true →
       (fetchCached "users" "all" (.ok (JSVal.arr [])) 300 noFaults
         (fetchCached "users" "all" (.ok (JSVal.arr [])) 60 noFaults []).store).dbCalls = 0) ∧
     ((JSVal.arr []).truthy = false →
       (fetchCached "users" "all" (.ok (JSVal.arr [])) 300 noFaults
         (fetchCached "users" "all" (.ok (JSVal.arr [])) 60 noFaults []).store).dbCalls = 1)) :=
  ⟨rfl, fetchCached_stores_iff_truthy "users" "all" (JSVal.arr []) 60 300 [] rfl⟩

/-- C6 counterexample: on a cache miss where `computeFn` succeeds and the
subsequent `redis.set` throws, `fetchCached` invokes `computeFn` a second
time (the catch-all fallback re-runs the query): the call count is 2, not
1 as the claim ("without invoking computeFn a second time") requires. -/
theorem fetchCached_set_failure_recomputes :
    (fetchCached "users" "1" (.ok (JSVal.str "x")) 300 ⟨false, true⟩ []).dbCalls = 2 ∧
    ¬ (fetchCached "users" "1" (.ok (JSVal.str "x")) 300 ⟨false, true⟩ []).dbCalls = 1 :=
  ⟨rfl, by decide⟩

/-- C6 amended: on a cache-miss execution in which `computeFn` succeeds with
a storable value but the cache-store write fails, `fetchCached` catches the
fault and returns the value produced by re-invoking the deterministic
`computeFn` (equal to the first result) without throwing; `computeFn` is
invoked twice in total and nothing is stored. -/
theorem fetchCached_set_failure_returns_value (resource id : String) (v : JSVal)
    (ttl : Nat) (store : CacheStore)
    (hmiss : lookupKey store (resource ++ ":" ++ id) = none)
    (htruthy : v.truthy = true) :
    (fetchCached resource id (.ok v) ttl ⟨false, true⟩ store).result = .ok v ∧
    (fetchCached resource id (.ok v) ttl ⟨false, true⟩ store).dbCalls = 2 ∧
    (fetchCached resource id (.ok v) ttl ⟨false, true⟩ store).store = store := by
  simp [fetchCached, hmiss, htruthy]

/-- Witness for C6 amended: concrete run with a failing `redis.set`. -/
theorem fetchCached_set_failure_returns_value_witness :
    lookupKey [] ("users" ++ ":" ++ "1") = none ∧
    (JSVal.str "x").truthy = true ∧
    ((fetchCached "users" "1" (.ok (JSVal.str "x")) 300 ⟨false, true⟩ []).result
        = .ok (JSVal.str "x") ∧
     (fetchCached "users" "1" (.ok (JSVal.str "x")) 300 ⟨false, true⟩ []).dbCalls = 2 ∧
     (fetchCached "users" "1" (.ok (JSVal.str "x")) 300 ⟨false, true⟩ []).store = []) :=
  ⟨rfl, rfl,
    fetchCached_set_failure_returns_value "users" "1" (JSVal.str "x") 300 [] rfl rfl⟩

/-- A store with no entry for `k` answers `false` to an existence check. -/
theorem keyExists_eq_false_of (s : CacheStore) (k : String)
    (h : ∀ e ∈ s, e.key ≠ k) : keyExists s k = false := by
  have : s.find? (fun e => e.key == k) = none := by
    rw [List.find?_eq_none]
    intro e he
    simpa using h e he
  simp [keyExists, this]

/-- Loop invariant of `scanDeleteLoop`: if every entry of the store whose
key is `k` has `k` still ahead in the scan snapshot, then after the loop no
entry with a matching key `k` remains. -/
theorem scanDeleteLoop_removes (pat k : String) (hmatch : globMatch pat k = true) :
    ∀ (n : Nat) (snapshot : List String) (s : CacheStore), snapshot.length ≤ n →
      (∀ e ∈ s, e.key = k → k ∈ snapshot) →
      keyExists (scanDeleteLoop pat snapshot s) k = false := by
  intro n
  induction n with
  | zero =>
    intro snapshot s hlen hcov
    have hsnap : snapshot = [] := List.eq_nil_of_length_eq_zero (Nat.le_zero.mp hlen)
    subst hsnap
    rw [scanDeleteLoop]
    exact keyExists_eq_false_of s k (fun e he hek => (List.not_mem_nil k) (hcov e he hek))
  | succ n ih =>
    intro snapshot s hlen hcov
    match snapshot with
    | [] =>
      rw [scanDeleteLoop]
      exact keyExists_eq_false_of s k (fun e he hek => (List.not_mem_nil k) (hcov e he hek))
    | h :: t =>
      rw [scanDeleteLoop]
      apply ih
      · simp only [List.length_drop, List.length_cons] at *
        omega
      · intro e he hek
        rw [delKeys, List.mem_filter, decide_eq_true_eq] at he
        obtain ⟨hes, hnb⟩ := he
        have hk : k ∈ h :: t := hcov e hes hek
        rw [← List.take_append_drop 100 (h :: t), List.mem_append] at hk
        rcases hk with hk | hk
        · exfalso
          apply hnb
          rw [scanBatch, List.mem_filter]
          exact ⟨hek ▸ hk, by rw [hek]; exact hmatch⟩
        · exact hk

/-- C7: after `invalidatePattern(pattern)` completes without a store error,
no key matching the pattern remains — an existence check for any matching
key returns `false` — and each scan step of the cursor loop examines at
most `COUNT = 100` keys, deleting batch by batch instead of one blocking
full-keyspace pass. -/
theorem invalidatePattern_removes_matching (pat : String) (s : CacheStore)
    (k : String) (snapshot : List String)
    (hmatch : globMatch pat k = true) :
    keyExists (invalidatePattern pat s) k = false ∧
    (scanBatch pat snapshot).length ≤ 100 := by
  constructor
  · rw [invalidatePattern]
    apply scanDeleteLoop_removes pat k hmatch (storeKeys s).length _ s le_rfl
    intro e he hek
    rw [storeKeys, ← hek]
    exact List.mem_map_of_mem (fun e => e.key) he
  · calc (scanBatch pat snapshot).length
        ≤ (snapshot.take 100).length := List.length_filter_le _ _
      _ ≤ 100 := by simp [List.length_take]

unseal globMatchL in
/-- Witness for C7: five paginated entries under a shared namespace are all
gone after pattern invalidation (checked here for page 3). -/
theorem invalidatePattern_removes_matching_witness :
    globMatch "users:performers_p*" "users:performers_p3_l10" = true ∧
    (keyExists
        (invalidatePattern "users:performers_p*"
          [⟨"users:performers_p1_l10", JSVal.arr [], 300⟩,
           ⟨"users:performers_p2_l10", JSVal.arr [], 300⟩,
           ⟨"users:performers_p3_l10", JSVal.arr [], 300⟩,
           ⟨"users:performers_p4_l10", JSVal.arr [], 300⟩,
           ⟨"users:performers_p5_l10", JSVal.arr [], 300⟩])
        "users:performers_p3_l10" = false ∧
     (scanBatch "users:performers_p*" ["users:performers_p1_l10"]).length ≤ 100) :=
  ⟨by decide,
    invalidatePattern_removes_matching "users:performers_p*"
      [⟨"users:performers_p1_l10", JSVal.arr [], 300⟩,
       ⟨"users:performers_p2_l10", JSVal.arr [], 300⟩,
       ⟨"users:performers_p3_l10", JSVal.arr [], 300⟩,
       ⟨"users:performers_p4_l10", JSVal.arr [], 300⟩,
       ⟨"users:performers_p5_l10", JSVal.arr [], 300⟩]
      "users:performers_p3_l10" ["users:performers_p1_l10"] (by decide)⟩

/-- C8: two query-parameter objects binding the same keys to the same
values, in any enumeration order, yield the same search cache key: the
parameters are re-serialized with keys sorted by name before hashing. -/
theorem searchCacheKey_key_order_independent (md5hex : String → String)
    (q1 q2 : List (String × String))
    (hperm : (q1.map Prod.fst).Perm (q2.map Prod.fst))
    (hval : ∀ k ∈ q1.map Prod.fst, q1.lookup k = q2.lookup k) :
    searchCacheKey md5hex q1 = searchCacheKey md5hex q2 := by
  have hkeys : sortedQueryKeys q1 = sortedQueryKeys q2 := by
    exact List.eq_of_perm_of_sorted
      (((List.mergeSort_perm _ _).trans hperm).trans (List.mergeSort_perm _ _).symm)
      (List.sorted_mergeSort' _) (List.sorted_mergeSort' _)
  have hmap : (sortedQueryKeys q1).map (fun k => (k, (q1.lookup k).getD ""))
      = (sortedQueryKeys q1).map (fun k => (k, (q2.lookup k).getD "")) := by
    apply List.map_congr_left
    intro k hk
    have hk1 : k ∈ q1.map Prod.fst := by
      simp only [sortedQueryKeys] at hk
      exact (List.mergeSort_perm _ _).mem_iff.mp hk
    rw [hval k hk1]
  rw [searchCacheKey, searchCacheKey, sortedParams, sortedParams, ← hkeys, hmap]

/-- Witness for C8: the two enumeration orders of `{city: "A", cat: "B"}`
produce one cache key. -/
theorem searchCacheKey_key_order_independent_witness :
    ((([("city", "A"), ("cat", "B")] : List (String × String)).map Prod.fst).Perm
        (([("cat", "B"), ("city", "A")] : List (String × String)).map Prod.fst)) ∧
    (∀ k ∈ ([("city", "A"), ("cat", "B")] : List (String × String)).map Prod.fst,
        ([("city", "A"), ("cat", "B")] : List (String × String)).lookup k
          = ([("cat", "B"), ("city", "A")] : List (String × String)).lookup k) ∧
    searchCacheKey (fun s => s) [("city", "A"), ("cat", "B")]
      = searchCacheKey (fun s => s) [("cat", "B"), ("city", "A")] :=
  ⟨by decide, by decide,
    searchCacheKey_key_order_independent (fun s => s)
      [("city", "A"), ("cat", "B")] [("cat", "B"), ("city", "A")]
      (by decide) (by decide)⟩

/-- C2, against the source: the disconnect handler runs a plain `SREM` with
no per-connection reference count, so after two connections of `"u1"` and a
single disconnect the presence set is already empty — `"u1"` is gone even
though one connection is still live. -/
theorem presence_lost_after_first_disconnect :
    (disconnectHandler "u1"
        (connectionHandler "u1" (connectionHandler "u1" []).online).online).1 = [] ∧
    "u1" ∉ (disconnectHandler "u1"
        (connectionHandler "u1" (connectionHandler "u1" []).online).online).1 :=
  ⟨by decide, by decide⟩

/-- C3: a `NEW_MESSAGE` envelope with conversation `c1` and a present
receiver `u2` produces exactly two emissions, in order: one
`receive_message` into room `c1` carrying the message, and one
`message_notification` into the personal room `u2` carrying the chat
identifier, the sender's display name and the content preview — and
nothing else. -/
theorem handleRedisEvent_message_fanout (m : MessageRecord) (c1 u2 : String)
    (hr : u2 ≠ "") :
    handleRedisEvent (.newMessage m c1 u2)
      = [⟨.room c1, "receive_message", .message m⟩,
         ⟨.room u2, "message_notification",
            .messageNotice c1 (senderDisplay m) m.content⟩] := by
  simp [handleRedisEvent, hr]

/-- Witness for C3: a concrete envelope for chat `c1`, receiver `u2`. -/
theorem handleRedisEvent_message_fanout_witness :
    ("u2" : String) ≠ "" ∧
    handleRedisEvent (.newMessage ⟨"hello", some "Alice"⟩ "c1" "u2")
      = [⟨.room "c1", "receive_message", .message ⟨"hello", some "Alice"⟩⟩,
         ⟨.room "u2", "message_notification",
            .messageNotice "c1" (senderDisplay ⟨"hello", some "Alice"⟩) "hello"⟩] :=
  ⟨by decide, handleRedisEvent_message_fanout ⟨"hello", some "Alice"⟩ "c1" "u2" (by decide)⟩

/-- C9: on every successful connection of `u`, after `u` is added to the
presence set the gateway emits exactly one `online_users_list`, addressed
to the connecting socket only (not broadcast), whose payload is the
membership of the presence set at that moment — which therefore contains
`u` itself. -/
theorem connectionHandler_online_list (u : String) (online : List String) :
    (connectionHandler u online).emits
      = [⟨.connectingSocket, "online_users_list",
            .userList (connectionHandler u online).online⟩] ∧
    (connectionHandler u online).online = saddOnline online u ∧
    u ∈ (connectionHandler u online).online := by
  refine ⟨rfl, rfl, ?_⟩
  by_cases h : u ∈ online <;> simp [connectionHandler, saddOnline, h]

/-- A successful loop exit returns a padded draw whose key is absent. -/
theorem genLoop_ok (store : CacheStore) (rands : Nat → Fin 100) (faults : GenFaults) :
    ∀ (fuel i : Nat) (code : String),
      genLoop store rands faults fuel i = some (.ok code) →
      (∃ j, code = pad2 (rands j)) ∧ keyExists store (codeKey code) = false := by
  intro fuel
  induction fuel with
  | zero => intro i code h; exact absurd h (by simp [genLoop])
  | succ fuel ih =>
    intro i code h
    rw [genLoop] at h
    by_cases hf : faults.existsFailsAt i = true
    · simp [hf] at h
    · simp only [hf, if_false, Bool.false_eq_true] at h
      by_cases hex : keyExists store (codeKey (pad2 (rands i))) = true
      · simp only [hex, if_true] at h
        exact ih (i + 1) code h
      · simp only [hex, if_false, Bool.false_eq_true, Option.some.injEq,
          Except.ok.injEq] at h
        subst h
        exact ⟨⟨i, rfl⟩, by simpa using hex⟩

/-- If every draw's key is taken and no Redis call throws, the loop never
exits, whatever fuel it is given. -/
theorem genLoop_never_exits (store : CacheStore) (rands : Nat → Fin 100)
    (faults : GenFaults)
    (hnf : ∀ i, faults.existsFailsAt i = false)
    (hall : ∀ n : Fin 100, keyExists store (codeKey (pad2 n)) = true) :
    ∀ fuel i, genLoop store rands faults fuel i = none := by
  intro fuel
  induction fuel with
  | zero => intro i; rfl
  | succ fuel ih =>
    intro i
    rw [genLoop]
    simp only [hnf i, Bool.false_eq_true, if_false, hall (rands i), if_true]
    exact ih (i + 1)

/-- Every padded draw is a two-character string. -/
theorem pad2_length_two : ∀ n : Fin 100, (pad2 n).length = 2 := by decide

/-- C10: `generateUniqueCode` either returns a two-character zero-padded
decimal code drawn from 0–99 whose Redis key `code:<code>` was absent when
checked, storing that key (value `"active"`) with the two-day expiry; or it
returns `null` when a Redis operation throws (shown for a throwing
`redis.exists` and for a throwing `redis.set`); and if all 100 code keys
are already present while Redis keeps succeeding, the generation loop never
terminates: no amount of fuel makes it exit. -/
theorem generateUniqueCode_behavior (store : CacheStore) (rands : Nat → Fin 100)
    (faults : GenFaults) (fuel : Nat) :
    (∀ code store2, generateUniqueCode store rands faults fuel = .value code store2 →
       (∃ n : Fin 100, code = pad2 n) ∧ code.length = 2 ∧
       keyExists store (codeKey code) = false ∧
       store2 = setKey store (codeKey code) (.str "active") EXPIRY_IN_SECONDS) ∧
    (0 < fuel → faults.existsFailsAt 0 = true →
       generateUniqueCode store rands faults fuel = .nullResult store) ∧
    (faults.setFails = true →
       ∀ code store2, generateUniqueCode store rands faults fuel ≠ .value code store2) ∧
    ((∀ i, faults.existsFailsAt i = false) →
     (∀ n : Fin 100, keyExists store (codeKey (pad2 n)) = true) →
       generateUniqueCode store rands faults fuel = .outOfFuel) := by
  refine ⟨?_, ?_, ?_, ?_⟩
  · intro code store2 h
    rw [generateUniqueCode] at h
    rcases hg : genLoop store rands faults fuel 0 with _ | r
    · rw [hg] at h; simp at h
    · rcases r with e | c
      · rw [hg] at h; simp at h
      · rw [hg] at h
        by_cases hs : faults.setFails = true
        · simp [hs] at h
        · simp only [hs, Bool.false_eq_true, if_false, GenOutcome.value.injEq] at h
          obtain ⟨hc, hst⟩ := h
          obtain ⟨⟨j, hj⟩, hex⟩ := genLoop_ok store rands faults fuel 0 c hg
          subst hc
          refine ⟨⟨rands j, hj⟩, ?_, hex, ?_⟩
          · rw [hj]; exact pad2_length_two (rands j)
          · rw [← hst, setKeyNX, hex]
            simp
  · intro hpos hf0
    obtain ⟨n, rfl⟩ : ∃ n, fuel = n + 1 := ⟨fuel - 1, by omega⟩
    rw [generateUniqueCode, genLoop]
    simp [hf0]
  · intro hs code store2 h
    rw [generateUniqueCode] at h
    rcases hg : genLoop store rands faults fuel 0 with _ | r
    · rw [hg] at h; simp at h
    · rcases r with e | c
      · rw [hg] at h; simp at h
      · rw [hg] at h; simp [hs] at h
  · intro hnf hall
    rw [generateUniqueCode, genLoop_never_exits store rands faults hnf hall fuel 0]

/-- Witness for C10: a concrete successful draw of `"00"` on an empty
store, a `null` return when `redis.exists` throws, and fuel exhaustion on
a fully taken key space. -/
theorem generateUniqueCode_behavior_witness :
    (generateUniqueCode [] (fun _ => (0 : Fin 100)) genNoFaults 1
        = .value "00" (setKeyNX [] (codeKey "00") (JSVal.str "active") EXPIRY_IN_SECONDS) ∧
     ((∃ n : Fin 100, "00" = pad2 n) ∧ ("00" : String).length = 2 ∧
      keyExists [] (codeKey "00") = false ∧
      setKeyNX [] (codeKey "00") (JSVal.str "active") EXPIRY_IN_SECONDS
        = setKey [] (codeKey "00") (JSVal.str "active") EXPIRY_IN_SECONDS)) ∧
    (0 < 1 ∧ (⟨fun _ => true, false⟩ : GenFaults).existsFailsAt 0 = true ∧
     generateUniqueCode [] (fun _ => (0 : Fin 100)) ⟨fun _ => true, false⟩ 1
        = .nullResult []) ∧
    ((∀ i, genNoFaults.existsFailsAt i = false) ∧
     (∀ n : Fin 100, keyExists allCodesStore (codeKey (pad2 n)) = true) ∧
     generateUniqueCode allCodesStore (fun _ => (0 : Fin 100)) genNoFaults 7
        = .outOfFuel) :=
  ⟨⟨rfl,
    (generateUniqueCode_behavior [] (fun _ => (0 : Fin 100)) genNoFaults 1).1 "00"
      (setKeyNX [] (codeKey "00") (JSVal.str "active") EXPIRY_IN_SECONDS) rfl⟩,
   ⟨by decide, rfl,
    (generateUniqueCode_behavior [] (fun _ => (0 : Fin 100))
        ⟨fun _ => true, false⟩ 1).2.1 (by decide) rfl⟩,
   ⟨fun _ => rfl, by decide,
    (generateUniqueCode_behavior allCodesStore (fun _ => (0 : Fin 100))
        genNoFaults 7).2.2.2 (fun _ => rfl) (by decide)⟩⟩
